import Mathlib

/-!
Shallow embedding of the python-fastapi-gcp-bucket-demo repository:
`app/config.py`, `app/storage.py`, `app/main.py`.

The remote Google Cloud Storage backend is external to the repository; its
bucket is modelled from the spec as a flat map from object names to stored
objects (content bytes plus a content type), with put/get/stat/delete
semantics as described in the spec's storage-gateway contract.  Transport
failures of the backend are modelled by an optional injected fault message:
when present, the backend call raises a generic exception carrying that
message, which the gateway converts into an HTTP 500 error.
-/

namespace GcpDemo

/-- File content as a list of byte values. -/
abbrev Bytes := List Nat

/-- Embedding of `fastapi.HTTPException`: a status code plus a detail string. -/
structure HTTPException where
  status_code : Nat
  detail : String
deriving DecidableEq

/-- Embedding of `app/config.py` `Settings`: environment-loaded configuration
with the defaults of the source (10 MiB max size, no extension allow-list,
port 8080).  `ALLOWED_FILE_TYPES = none` models the unset environment
variable (Python `None`). -/
structure Settings where
  GCP_BUCKET_NAME : String
  MAX_FILE_SIZE : Nat := 10 * 1024 * 1024
  ALLOWED_FILE_TYPES : Option String := none
  PORT : Nat := 8080
deriving DecidableEq

/-- ASCII fragment of Python `str.lower`, applied characterwise (the
filenames and extension lists the code manipulates are ASCII). -/
def pyCharLower (c : Char) : Char :=
  match c with
  | 'A' => 'a' | 'B' => 'b' | 'C' => 'c' | 'D' => 'd' | 'E' => 'e' | 'F' => 'f'
  | 'G' => 'g' | 'H' => 'h' | 'I' => 'i' | 'J' => 'j' | 'K' => 'k' | 'L' => 'l'
  | 'M' => 'm' | 'N' => 'n' | 'O' => 'o' | 'P' => 'p' | 'Q' => 'q' | 'R' => 'r'
  | 'S' => 's' | 'T' => 't' | 'U' => 'u' | 'V' => 'v' | 'W' => 'w' | 'X' => 'x'
  | 'Y' => 'y' | 'Z' => 'z'
  | d => d

/-- Python `str.lower` on a character list. -/
def pyLower (cs : List Char) : List Char := cs.map pyCharLower

/-- Python `str.strip`: drop leading and trailing whitespace. -/
def pyStrip (cs : List Char) : List Char :=
  ((cs.dropWhile Char.isWhitespace).reverse.dropWhile Char.isWhitespace).reverse

/-- Python `str.split` with a single-character separator: splits at every
occurrence of the separator, keeping empty pieces; the empty string yields
a one-element list holding the empty string. -/
def pySplitChar (sep : Char) : List Char → List (List Char)
  | [] => [[]]
  | c :: cs =>
    match pySplitChar sep cs with
    | [] => [[]]
    | h :: t => if c = sep then [] :: h :: t else (c :: h) :: t

/-- Embedding of `app/config.py` `get_allowed_extensions`:
`[ext.strip().lower() for ext in settings.ALLOWED_FILE_TYPES.split(",")]`
when `settings.ALLOWED_FILE_TYPES` is truthy, else `None`.  Python
truthiness makes both `None` and the empty string fall through to `None`. -/
def get_allowed_extensions (s : Settings) : Option (List String) :=
  match s.ALLOWED_FILE_TYPES with
  | none => none
  | some v =>
    if v = "" then none
    else some ((pySplitChar ',' v.toList).map (fun e => String.mk (pyLower (pyStrip e))))

/-- Embedding of `app/main.py` `validate_file_size`: raise HTTP 400 when the
size exceeds the configured maximum, return normally otherwise. -/
def validate_file_size (s : Settings) (file_size : Nat) : Except HTTPException Unit :=
  if file_size > s.MAX_FILE_SIZE then
    .error ⟨400, "File size (" ++ toString file_size ++
      " bytes) exceeds maximum allowed size (" ++ toString s.MAX_FILE_SIZE ++ " bytes)"⟩
  else .ok ()

/-- Embedding of `app/main.py` line 37:
`filename.split(".")[-1].lower() if "." in filename else ""`. -/
def derivedExt (filename : String) : String :=
  if '.' ∈ filename.toList then
    String.mk (pyLower ((pySplitChar '.' filename.toList).getLastD []))
  else ""

/-- Embedding of `app/main.py` `validate_file_type`: pass when no allow-list
is configured; otherwise derive the extension and raise HTTP 400 when it is
not in the allow-list. -/
def validate_file_type (s : Settings) (filename : String) : Except HTTPException Unit :=
  match get_allowed_extensions s with
  | none => .ok ()
  | some allowed_extensions =>
    let file_ext := derivedExt filename
    if allowed_extensions.contains file_ext then .ok ()
    else
      .error ⟨400, "File type '" ++ file_ext ++ "' not allowed. Allowed types: " ++
        String.intercalate ", " allowed_extensions⟩

/-- Modelled from the spec: the content type the external backend records
when the upload supplies none (`application/octet-stream` per the spec's
default for unknown content types). -/
def backendDefaultContentType : String := "application/octet-stream"

/-- Modelled from the spec: an object held by the external backend bucket is
its content bytes plus a content type (the spec's object metadata lists the
content type as always present; timestamps are backend-internal and not
modelled). -/
structure StoredObject where
  content : Bytes
  contentType : String
deriving DecidableEq

/-- Modelled from the spec: the bucket is a flat namespace of named objects,
represented as an association list keyed by filename. -/
abbrev Bucket := List (String × StoredObject)

/-- Modelled from the spec: removing an object removes every binding of its
name from the bucket. -/
def bucketDelete (b : Bucket) (name : String) : Bucket :=
  b.filter (fun p => p.1 != name)

/-- Modelled from the spec: `put` overwrites any existing object of the same
name (no optimistic-concurrency check). -/
def bucketPut (b : Bucket) (name : String) (obj : StoredObject) : Bucket :=
  (name, obj) :: bucketDelete b name

/-- Backend-visible state threaded through the gateway: the bucket plus a
counter of gateway `put` invocations (used to observe that a rejected upload
never reaches the backend). -/
structure St where
  bucket : Bucket
  putCalls : Nat
deriving DecidableEq

/-- The metadata dictionary returned by `StorageService.upload_file`:
`{filename, bucket, size, content_type}`, where `content_type` is the value
supplied by the caller (possibly `None`). -/
structure UploadResult where
  filename : String
  bucket : String
  size : Nat
  content_type : Option String
deriving DecidableEq

/-- The metadata dictionary returned by `StorageService.get_file_metadata`:
`{filename, size, content_type, created, updated}`.  The timestamps live in
the external backend and are modelled as absent. -/
structure FileMetadata where
  filename : String
  size : Nat
  content_type : String
  created : Option String
  updated : Option String
deriving DecidableEq

/-- Embedding of `app/storage.py` `StorageService.upload_file`: one backend
write (`blob.upload_from_string`), counted in `putCalls`.  A backend fault
with message `m` is caught and re-raised as HTTP 500 with `m` appended; on
success the bucket stores the bytes under `filename` with the supplied
content type or the backend default, and the returned metadata echoes the
supplied content type. -/
def StorageService.upload_file (s : Settings) (fault : Option String) (st : St)
    (file_content : Bytes) (filename : String) (content_type : Option String) :
    Except HTTPException UploadResult × St :=
  let st1 : St := { st with putCalls := st.putCalls + 1 }
  match fault with
  | some m => (.error ⟨500, "Failed to upload file: " ++ m⟩, st1)
  | none =>
    let obj : StoredObject := ⟨file_content, content_type.getD backendDefaultContentType⟩
    (.ok ⟨filename, s.GCP_BUCKET_NAME, file_content.length, content_type⟩,
     { st1 with bucket := bucketPut st.bucket filename obj })

/-- Embedding of `app/storage.py` `StorageService.download_file`: 404 when
`blob.exists()` is false, the stored bytes otherwise; a backend fault is
caught and re-raised as HTTP 500 with its message appended. -/
def StorageService.download_file (fault : Option String) (b : Bucket) (filename : String) :
    Except HTTPException Bytes :=
  match fault with
  | some m => .error ⟨500, "Failed to download file: " ++ m⟩
  | none =>
    match b.lookup filename with
    | none => .error ⟨404, "File '" ++ filename ++ "' not found in bucket"⟩
    | some obj => .ok obj.content

/-- Embedding of `app/storage.py` `StorageService.get_file_metadata`: 404
when absent, otherwise the blob's current metadata; a backend fault is
caught and re-raised as HTTP 500 with its message appended. -/
def StorageService.get_file_metadata (fault : Option String) (b : Bucket) (filename : String) :
    Except HTTPException FileMetadata :=
  match fault with
  | some m => .error ⟨500, "Failed to get file metadata: " ++ m⟩
  | none =>
    match b.lookup filename with
    | none => .error ⟨404, "File '" ++ filename ++ "' not found in bucket"⟩
    | some obj => .ok ⟨filename, obj.content.length, obj.contentType, none, none⟩

/-- Embedding of `app/storage.py` `StorageService.delete_file`: 404 when
absent, otherwise remove the object and return the dictionary
`{"message": ..., "filename": filename}` (modelled as an association list to
keep the exact key set); a backend fault is caught and re-raised as HTTP 500
with its message appended. -/
def StorageService.delete_file (fault : Option String) (st : St) (filename : String) :
    Except HTTPException (List (String × String)) × St :=
  match fault with
  | some m => (.error ⟨500, "Failed to delete file: " ++ m⟩, st)
  | none =>
    match st.bucket.lookup filename with
    | none => (.error ⟨404, "File '" ++ filename ++ "' not found in bucket"⟩, st)
    | some _ =>
      (.ok [("message", "File '" ++ filename ++ "' deleted successfully"),
            ("filename", filename)],
       { st with bucket := bucketDelete st.bucket filename })

/-- The multipart upload request: filename, content bytes and the declared
content type of the uploaded file. -/
structure UploadFileReq where
  filename : String
  content : Bytes
  content_type : Option String
deriving DecidableEq

/-- Body of the 200 response of `POST /upload`. -/
structure UploadResponse where
  message : String
  data : UploadResult
deriving DecidableEq

/-- Embedding of the `app/main.py` `upload_file` handler: read the body,
validate size then type, then call the gateway put; an `HTTPException`
raised anywhere inside is re-raised unchanged. -/
def upload_file_handler (s : Settings) (fault : Option String) (st : St)
    (file : UploadFileReq) : Except HTTPException UploadResponse × St :=
  let file_content := file.content
  let file_size := file_content.length
  match validate_file_size s file_size with
  | .error e => (.error e, st)
  | .ok _ =>
    match validate_file_type s file.filename with
    | .error e => (.error e, st)
    | .ok _ =>
      match StorageService.upload_file s fault st file_content file.filename file.content_type with
      | (.error e, st1) => (.error e, st1)
      | (.ok result, st1) => (.ok ⟨"File uploaded successfully", result⟩, st1)

/-- The streaming response of `GET /download/{filename}`: body bytes, the
media type passed to `StreamingResponse`, and the `Content-Disposition`
header value. -/
structure DownloadResponse where
  body : Bytes
  media_type : String
  content_disposition : String
deriving DecidableEq

/-- Embedding of the `app/main.py` `download_file` handler: gateway get,
then stat for the content type (`metadata.get("content_type", ...)` — the
metadata dictionary always carries the key), then the streaming response
with an attachment disposition naming the file. -/
def download_file_handler (fault : Option String) (b : Bucket) (filename : String) :
    Except HTTPException DownloadResponse :=
  match StorageService.download_file fault b filename with
  | .error e => .error e
  | .ok file_content =>
    match StorageService.get_file_metadata fault b filename with
    | .error e => .error e
    | .ok metadata =>
      let content_type := metadata.content_type
      .ok ⟨file_content, content_type,
        "attachment; filename=\"" ++ filename ++ "\""⟩

/-- Body of the 200 response of `DELETE /delete/{filename}`: a message plus
the gateway's result dictionary as the `data` field. -/
structure DeleteResponse where
  message : String
  data : List (String × String)
deriving DecidableEq

/-- Embedding of the `app/main.py` `delete_file` handler: gateway delete,
wrapped in `{message, data}`; an `HTTPException` from the gateway is
re-raised unchanged. -/
def delete_file_handler (fault : Option String) (st : St) (filename : String) :
    Except HTTPException DeleteResponse × St :=
  match StorageService.delete_file fault st filename with
  | (.error e, st1) => (.error e, st1)
  | (.ok result, st1) => (.ok ⟨"File deleted successfully", result⟩, st1)

/-! ### Helper lemmas -/

theorem lookup_bucketDelete_self (b : Bucket) (n : String) :
    (bucketDelete b n).lookup n = none := by
  induction b with
  | nil => rfl
  | cons p b ih =>
    by_cases h : p.1 = n
    · simpa [bucketDelete, List.filter_cons, h] using ih
    · have hbne : (n == p.1) = false := beq_eq_false_iff_ne.mpr (Ne.symm h)
      simpa [bucketDelete, List.filter_cons, List.lookup, h, hbne] using ih

theorem lookup_bucketPut_self (b : Bucket) (n : String) (o : StoredObject) :
    (bucketPut b n o).lookup n = some o := by
  simp [bucketPut, List.lookup]

theorem pyCharLower_eq_or (c : Char) :
    pyCharLower c = c ∨ pyCharLower c ∈
      ['a', 'b', 'c', 'd', 'e', 'f', 'g', 'h', 'i', 'j', 'k', 'l', 'm',
       'n', 'o', 'p', 'q', 'r', 's', 't', 'u', 'v', 'w', 'x', 'y', 'z'] := by
  unfold pyCharLower
  split <;> simp

theorem pyCharLower_idem (c : Char) : pyCharLower (pyCharLower c) = pyCharLower c := by
  rcases pyCharLower_eq_or c with h | h
  · rw [h]; exact h
  · simp only [List.mem_cons, List.not_mem_nil, or_false] at h
    rcases h with h|h|h|h|h|h|h|h|h|h|h|h|h|h|h|h|h|h|h|h|h|h|h|h|h|h <;> rw [h] <;> rfl

theorem pyCharLower_whitespace (c : Char) :
    (pyCharLower c).isWhitespace = c.isWhitespace := by
  unfold pyCharLower
  split <;> rfl

theorem pyLower_idem (cs : List Char) : pyLower (pyLower cs) = pyLower cs := by
  simp [pyLower, List.map_map, Function.comp_def, pyCharLower_idem]

theorem head?_dropWhile_false {α : Type} {p : α → Bool} (l : List α) (c : α)
    (hc : (l.dropWhile p).head? = some c) : p c = false := by
  have h := List.head?_dropWhile_not p l
  rw [hc] at h
  exact h

theorem dropWhile_eq_self_of_head? {α : Type} {p : α → Bool} {l : List α}
    (h : ∀ c, l.head? = some c → p c = false) : l.dropWhile p = l := by
  cases l with
  | nil => rfl
  | cons x xs => simp [List.dropWhile_cons, h x rfl]

theorem dropWhile_dropWhile_self {α : Type} (p : α → Bool) (l : List α) :
    (l.dropWhile p).dropWhile p = l.dropWhile p :=
  dropWhile_eq_self_of_head? (fun c hc => head?_dropWhile_false l c hc)

theorem pyStrip_head? (cs : List Char) (c : Char) (hc : (pyStrip cs).head? = some c) :
    c.isWhitespace = false := by
  unfold pyStrip at hc
  rw [List.head?_reverse] at hc
  set w := cs.dropWhile Char.isWhitespace with hw
  have hne : w.reverse.dropWhile Char.isWhitespace ≠ [] := by
    intro e
    rw [e] at hc
    simp at hc
  have hsplit := List.takeWhile_append_dropWhile Char.isWhitespace w.reverse
  have hgl : (w.reverse.dropWhile Char.isWhitespace).getLast? = w.reverse.getLast? := by
    conv_rhs => rw [← hsplit]
    rw [List.getLast?_append_of_ne_nil _ hne]
  rw [hgl, List.getLast?_reverse] at hc
  exact head?_dropWhile_false cs c hc

theorem pyStrip_idem (cs : List Char) : pyStrip (pyStrip cs) = pyStrip cs := by
  have h1 : (pyStrip cs).dropWhile Char.isWhitespace = pyStrip cs :=
    dropWhile_eq_self_of_head? (fun c hc => pyStrip_head? cs c hc)
  show ((((pyStrip cs).dropWhile Char.isWhitespace).reverse.dropWhile
      Char.isWhitespace).reverse) = pyStrip cs
  rw [h1]
  show (((((cs.dropWhile Char.isWhitespace).reverse.dropWhile
      Char.isWhitespace).reverse).reverse.dropWhile Char.isWhitespace).reverse) =
    pyStrip cs
  rw [List.reverse_reverse, dropWhile_dropWhile_self]
  rfl

theorem pyStrip_pyLower (cs : List Char) :
    pyStrip (pyLower cs) = pyLower (pyStrip cs) := by
  have hp : (Char.isWhitespace ∘ pyCharLower) = Char.isWhitespace := by
    funext c
    exact pyCharLower_whitespace c
  unfold pyStrip pyLower
  rw [List.dropWhile_map, hp, ← List.map_reverse, List.dropWhile_map, hp,
    ← List.map_reverse]

/-! ### pySplitChar lemmas -/

theorem pySplitChar_ne_nil (sep : Char) (cs : List Char) : pySplitChar sep cs ≠ [] := by
  cases cs with
  | nil => simp [pySplitChar]
  | cons c cs =>
    simp only [pySplitChar]
    cases hsplit : pySplitChar sep cs with
    | nil => simp
    | cons x t => by_cases hc : c = sep <;> simp [hc]

theorem pySplitChar_of_not_mem (sep : Char) (cs : List Char) (h : sep ∉ cs) :
    pySplitChar sep cs = [cs] := by
  induction cs with
  | nil => rfl
  | cons c cs ih =>
    have h1 : sep ≠ c := fun e => h (by simp [e])
    have h2 : sep ∉ cs := fun m => h (List.mem_cons_of_mem c m)
    simp only [pySplitChar, ih h2]
    simp [Ne.symm h1]

theorem pySplitChar_length_two (sep : Char) (cs : List Char) (h : sep ∈ cs) :
    2 ≤ (pySplitChar sep cs).length := by
  induction cs with
  | nil => cases h
  | cons c cs ih =>
    simp only [pySplitChar]
    cases hsplit : pySplitChar sep cs with
    | nil => exact absurd hsplit (pySplitChar_ne_nil sep cs)
    | cons x t =>
      by_cases hc : c = sep
      · simp [hc]
      · have hmem : sep ∈ cs := by
          rcases List.mem_cons.mp h with h1 | h1
          · exact absurd h1.symm hc
          · exact h1
        have hlen := ih hmem
        rw [hsplit] at hlen
        simpa [hc] using hlen

theorem getLastD_irrel {α : Type} (l : List α) (hl : l ≠ []) (d1 d2 : α) :
    l.getLastD d1 = l.getLastD d2 := by
  cases l with
  | nil => exact absurd rfl hl
  | cons x xs =>
    rw [List.getLastD_eq_getLast?, List.getLastD_eq_getLast?]
    cases hgl : (x :: xs).getLast? with
    | none => simp at hgl
    | some y => rfl

theorem pySplitChar_last_spec (sep : Char) (cs : List Char) (h : sep ∈ cs) :
    ∃ p t, cs = p ++ sep :: t ∧ sep ∉ t ∧ (pySplitChar sep cs).getLastD [] = t := by
  induction cs with
  | nil => cases h
  | cons c cs ih =>
    by_cases hmem : sep ∈ cs
    · obtain ⟨p, t, hcs, hnt, hlast⟩ := ih hmem
      refine ⟨c :: p, t, by rw [hcs]; rfl, hnt, ?_⟩
      simp only [pySplitChar]
      cases hsplit : pySplitChar sep cs with
      | nil => exact absurd hsplit (pySplitChar_ne_nil sep cs)
      | cons x ts =>
        have hlen : 2 ≤ (x :: ts).length := by
          rw [← hsplit]
          exact pySplitChar_length_two sep cs hmem
        have hts : ts ≠ [] := by
          intro e
          rw [e] at hlen
          simp at hlen
        rw [hsplit, List.getLastD_cons] at hlast
        show (if c = sep then [] :: x :: ts else (c :: x) :: ts).getLastD [] = t
        by_cases hc : c = sep
        · rw [if_pos hc, List.getLastD_cons, List.getLastD_cons]
          exact hlast
        · rw [if_neg hc, List.getLastD_cons]
          rw [getLastD_irrel ts hts (c :: x) x]
          exact hlast
    · have hc : c = sep := by
        rcases List.mem_cons.mp h with h1 | h1
        · exact h1.symm
        · exact absurd h1 hmem
      refine ⟨[], cs, by simp [hc], hmem, ?_⟩
      simp only [pySplitChar, pySplitChar_of_not_mem sep cs hmem, if_pos hc]
      simp [List.getLastD_cons]

/-! ### C1, C3, C9, C10 -/

/-- C1: when the upload body's byte length is at most the configured max,
size validation passes; when it exceeds the max, the upload handler fails
with HTTP 400 (the TooLarge validation message) and returns the backend
state unchanged — for every possible backend fault — so no gateway put is
ever invoked and the bucket is untouched. -/
theorem upload_size_gate (s : Settings) (fault : Option String) (st : St)
    (file : UploadFileReq) :
    (file.content.length ≤ s.MAX_FILE_SIZE →
      validate_file_size s file.content.length = .ok ()) ∧
    (s.MAX_FILE_SIZE < file.content.length →
      upload_file_handler s fault st file =
        (.error ⟨400, "File size (" ++ toString file.content.length ++
          " bytes) exceeds maximum allowed size (" ++
          toString s.MAX_FILE_SIZE ++ " bytes)"⟩, st)) := by
  constructor
  · intro h
    simp [validate_file_size, Nat.not_lt.mpr h]
  · intro h
    simp [upload_file_handler, validate_file_size, h]

/-- Witness for C1 at concrete inputs: a 3-byte body passes a 10-byte limit,
and a 3-byte body against a 2-byte limit is rejected with 400 and an
unchanged state even though a backend fault is armed. -/
theorem upload_size_gate_witness :
    (validate_file_size ⟨"bkt", 10, none, 8080⟩ (([1, 2, 3] : Bytes).length) = .ok ()) ∧
    upload_file_handler ⟨"bkt", 2, none, 8080⟩ (some "boom") ⟨[], 0⟩ ⟨"a.txt", [1, 2, 3], none⟩ =
      (.error ⟨400, "File size (3 bytes) exceeds maximum allowed size (2 bytes)"⟩, ⟨[], 0⟩) :=
  ⟨(upload_size_gate ⟨"bkt", 10, none, 8080⟩ none ⟨[], 0⟩ ⟨"a.txt", [1, 2, 3], none⟩).1
      (by decide),
   (upload_size_gate ⟨"bkt", 2, none, 8080⟩ (some "boom") ⟨[], 0⟩ ⟨"a.txt", [1, 2, 3], none⟩).2
      (by decide)⟩

/-- C3: deleting a name absent from the bucket yields HTTP 404; deleting a
present name succeeds, leaves the name absent, and a second delete of the
same name then yields HTTP 404 (delete is not idempotent across calls). -/
theorem delete_twice (st : St) (n : String) :
    (st.bucket.lookup n = none →
      delete_file_handler none st n =
        (.error ⟨404, "File '" ++ n ++ "' not found in bucket"⟩, st)) ∧
    (∀ o, st.bucket.lookup n = some o →
      ∃ st1, delete_file_handler none st n =
          (.ok ⟨"File deleted successfully",
            [("message", "File '" ++ n ++ "' deleted successfully"), ("filename", n)]⟩, st1) ∧
        st1.bucket.lookup n = none ∧
        delete_file_handler none st1 n =
          (.error ⟨404, "File '" ++ n ++ "' not found in bucket"⟩, st1)) := by
  constructor
  · intro h
    simp [delete_file_handler, StorageService.delete_file, h]
  · intro o h
    refine ⟨{ st with bucket := bucketDelete st.bucket n }, ?_, ?_, ?_⟩
    · simp [delete_file_handler, StorageService.delete_file, h]
    · exact lookup_bucketDelete_self st.bucket n
    · simp [delete_file_handler, StorageService.delete_file, lookup_bucketDelete_self]

/-- Witness for C3 at a concrete one-object bucket: second delete of
`a.txt` 404s, and deleting the never-present `b.txt` 404s. -/
theorem delete_twice_witness :
    (∃ st1, delete_file_handler none ⟨[("a.txt", ⟨[104], "text/plain"⟩)], 0⟩ "a.txt" =
        (.ok ⟨"File deleted successfully",
          [("message", "File 'a.txt' deleted successfully"), ("filename", "a.txt")]⟩, st1) ∧
      st1.bucket.lookup "a.txt" = none ∧
      delete_file_handler none st1 "a.txt" =
        (.error ⟨404, "File 'a.txt' not found in bucket"⟩, st1)) ∧
    delete_file_handler none ⟨[("a.txt", ⟨[104], "text/plain"⟩)], 0⟩ "b.txt" =
      (.error ⟨404, "File 'b.txt' not found in bucket"⟩,
       ⟨[("a.txt", ⟨[104], "text/plain"⟩)], 0⟩) :=
  ⟨(delete_twice ⟨[("a.txt", ⟨[104], "text/plain"⟩)], 0⟩ "a.txt").2
      ⟨[104], "text/plain"⟩ (by decide),
   (delete_twice ⟨[("a.txt", ⟨[104], "text/plain"⟩)], 0⟩ "b.txt").1 (by decide)⟩

/-- C9 counterexample: on a successful delete the `data` field of the 200
response carries the keys `message` and `filename` — not the filename
alone, as the claim states. -/
theorem delete_response_cex :
    delete_file_handler none ⟨[("a.txt", ⟨[104], "text/plain"⟩)], 0⟩ "a.txt" =
      (.ok ⟨"File deleted successfully",
        [("message", "File 'a.txt' deleted successfully"), ("filename", "a.txt")]⟩,
       ⟨[], 0⟩) ∧
    ([("message", "File 'a.txt' deleted successfully"),
      ("filename", "a.txt")].map Prod.fst : List String) ≠ ["filename"] :=
  ⟨rfl, by decide⟩

/-- C9 amended: every successful delete returns HTTP 200 with body
`{message, data}` where `data` holds exactly the keys `message` (a
human-readable confirmation) and `filename` (the deleted filename). -/
theorem delete_response_shape (st : St) (n : String) (resp : DeleteResponse) (st1 : St)
    (h : delete_file_handler none st n = (.ok resp, st1)) :
    resp.message = "File deleted successfully" ∧
    resp.data.map Prod.fst = ["message", "filename"] ∧
    resp.data.lookup "filename" = some n := by
  unfold delete_file_handler StorageService.delete_file at h
  cases hl : st.bucket.lookup n with
  | none => simp [hl] at h
  | some o =>
    simp only [hl] at h
    obtain ⟨h1, -⟩ := Prod.mk.injEq .. ▸ h
    cases h
    simp [List.lookup]

/-- Witness for C9 amended at a concrete one-object bucket. -/
theorem delete_response_shape_witness :
    ({ message := "File deleted successfully",
       data := [("message", "File 'a.txt' deleted successfully"),
                ("filename", "a.txt")] } : DeleteResponse).message =
        "File deleted successfully" ∧
    ([("message", "File 'a.txt' deleted successfully"),
      ("filename", "a.txt")].map Prod.fst : List String) = ["message", "filename"] ∧
    ([("message", "File 'a.txt' deleted successfully"),
      ("filename", "a.txt")] : List (String × String)).lookup "filename" = some "a.txt" :=
  delete_response_shape ⟨[("a.txt", ⟨[104], "text/plain"⟩)], 0⟩ "a.txt" _ ⟨[], 0⟩ rfl

/-- C10: setting the allowed-extensions environment variable to the empty
string behaves exactly like leaving it unset — `get_allowed_extensions`
returns `None` and type validation accepts every filename. -/
theorem empty_allowlist_means_unset (s : Settings) (h : s.ALLOWED_FILE_TYPES = some "") :
    get_allowed_extensions s = none ∧ ∀ f, validate_file_type s f = .ok () := by
  have hn : get_allowed_extensions s = none := by simp [get_allowed_extensions, h]
  exact ⟨hn, fun f => by simp [validate_file_type, hn]⟩

/-- Witness for C10 at a concrete settings value. -/
theorem empty_allowlist_means_unset_witness :
    get_allowed_extensions ⟨"bkt", 10, some "", 8080⟩ = none ∧
    ∀ f, validate_file_type ⟨"bkt", 10, some "", 8080⟩ f = .ok () :=
  empty_allowlist_means_unset ⟨"bkt", 10, some "", 8080⟩ rfl

/-! ### C2, C4, C5 -/

/-- C2: uploading bytes `B` under name `N` (backend succeeding, so no
injected fault) and then downloading `N` with no intervening mutation
returns exactly `B`, with the download's content type equal to the content
type supplied at upload, or the backend default when none was supplied. -/
theorem upload_download_roundtrip (s : Settings) (st : St) (B : Bytes) (N : String)
    (ct : Option String) :
    ∃ st1, StorageService.upload_file s none st B N ct =
        (.ok ⟨N, s.GCP_BUCKET_NAME, B.length, ct⟩, st1) ∧
      download_file_handler none st1.bucket N =
        .ok ⟨B, ct.getD backendDefaultContentType,
          "attachment; filename=\"" ++ N ++ "\""⟩ := by
  refine ⟨_, rfl, ?_⟩
  have hk := lookup_bucketPut_self st.bucket N ⟨B, ct.getD backendDefaultContentType⟩
  simp [download_file_handler, StorageService.download_file,
    StorageService.get_file_metadata, StorageService.upload_file, hk]

/-- C5: the extension derived during upload validation is the lowercased
substring after the last dot of the filename (the filename splits as
`p ++ "." ++ t` with no dot in `t` and the extension is `t` lowercased),
is empty when the filename has no dot, and the filename as stored by a
successful gateway put is the filename exactly as supplied, never
lowercased. -/
theorem derivedExt_last_dot_lowered (filename : String) :
    ('.' ∉ filename.toList → derivedExt filename = "") ∧
    ('.' ∈ filename.toList →
      ∃ p t, filename.toList = p ++ '.' :: t ∧ '.' ∉ t ∧
        derivedExt filename = String.mk (pyLower t)) ∧
    (∀ (s : Settings) (fault : Option String) (st : St) (content : Bytes)
        (ct : Option String) (r : UploadResult) (st1 : St),
      StorageService.upload_file s fault st content filename ct = (.ok r, st1) →
      r.filename = filename ∧
      st1.bucket.lookup filename =
        some ⟨content, ct.getD backendDefaultContentType⟩) := by
  refine ⟨?_, ?_, ?_⟩
  · intro h
    rw [derivedExt, if_neg h]
  · intro h
    obtain ⟨p, t, hcs, hnt, hlast⟩ := pySplitChar_last_spec '.' filename.toList h
    refine ⟨p, t, hcs, hnt, ?_⟩
    rw [derivedExt, if_pos h, hlast]
  · intro s fault st content ct r st1 hup
    cases fault with
    | some m => simp [StorageService.upload_file] at hup
    | none =>
      simp only [StorageService.upload_file] at hup
      rw [Prod.mk.injEq] at hup
      obtain ⟨hr, hs⟩ := hup
      rw [Except.ok.injEq] at hr
      subst hr
      subst hs
      exact ⟨rfl, lookup_bucketPut_self st.bucket filename _⟩

/-- Witness for C5: `README` has no dot and yields the empty extension;
`archive.tar.GZ` splits at its last dot; a gateway put of `a.TXT` stores
under `a.TXT` exactly. -/
theorem derivedExt_last_dot_lowered_witness :
    derivedExt "README" = "" ∧
    (∃ p t, ("archive.tar.GZ").toList = p ++ '.' :: t ∧ '.' ∉ t ∧
      derivedExt "archive.tar.GZ" = String.mk (pyLower t)) ∧
    ((⟨"a.TXT", "bkt", 1, none⟩ : UploadResult).filename = "a.TXT" ∧
      (⟨bucketPut [] "a.TXT" ⟨[7], backendDefaultContentType⟩, 1⟩ : St).bucket.lookup "a.TXT" =
        some ⟨[7], (none : Option String).getD backendDefaultContentType⟩) :=
  ⟨(derivedExt_last_dot_lowered "README").1 (by decide),
   (derivedExt_last_dot_lowered "archive.tar.GZ").2.1 (by decide),
   (derivedExt_last_dot_lowered "a.TXT").2.2 ⟨"bkt", 10, none, 8080⟩ none ⟨[], 0⟩
     [7] none _ _ rfl⟩

/-- C4: when no allow-list is configured, type validation accepts every
filename; when one is configured and the derived extension is not in it,
validation fails with HTTP 400 whose detail contains the derived extension
and the comma-joined allowed extensions, and the upload handler (given the
size check passes) returns that 400 with the backend state untouched, so no
object is created. -/
theorem validate_file_type_gate (s : Settings) (filename : String) :
    (get_allowed_extensions s = none → validate_file_type s filename = .ok ()) ∧
    (∀ allowed, get_allowed_extensions s = some allowed →
      derivedExt filename ∉ allowed →
      ∃ e : HTTPException,
        validate_file_type s filename = .error e ∧
        e.status_code = 400 ∧
        (∃ a b, e.detail = a ++ derivedExt filename ++ b) ∧
        (∃ a b, e.detail = a ++ String.intercalate ", " allowed ++ b) ∧
        (∀ (fault : Option String) (st : St) (file : UploadFileReq),
          file.filename = filename →
          file.content.length ≤ s.MAX_FILE_SIZE →
          upload_file_handler s fault st file = (.error e, st))) := by
  constructor
  · intro h
    simp [validate_file_type, h]
  · intro allowed ha hne
    have hcont : allowed.contains (derivedExt filename) = false :=
      Bool.eq_false_iff.mpr (fun hc => hne (List.elem_iff.mp hc))
    have hvt : validate_file_type s filename =
        .error ⟨400, "File type '" ++ derivedExt filename ++
          "' not allowed. Allowed types: " ++ String.intercalate ", " allowed⟩ := by
      simp [validate_file_type, ha, hne]
    refine ⟨_, hvt, rfl, ?_, ?_, ?_⟩
    · exact ⟨"File type '",
        "' not allowed. Allowed types: " ++ String.intercalate ", " allowed,
        String.append_assoc _ _ _⟩
    · refine ⟨"File type '" ++ derivedExt filename ++
        "' not allowed. Allowed types: ", "", ?_⟩
      rw [String.append_empty]
    · intro fault st file hfn hsize
      have hvs : validate_file_size s file.content.length = .ok () := by
        simp [validate_file_size, Nat.not_lt.mpr hsize]
      rw [← hfn] at hvt
      simp [upload_file_handler, hvs, hvt]
      rw [hfn]

/-- Witness for C4: with no allow-list `b.exe` passes; with allow-list
`txt`, `b.exe` is rejected with a 400 naming `exe` and listing `txt`. -/
theorem validate_file_type_gate_witness :
    validate_file_type ⟨"bkt", 1000, none, 8080⟩ "b.exe" = .ok () ∧
    (∃ e : HTTPException,
      validate_file_type ⟨"bkt", 1000, some "txt", 8080⟩ "b.exe" = .error e ∧
      e.status_code = 400 ∧
      (∃ a b, e.detail = a ++ derivedExt "b.exe" ++ b) ∧
      (∃ a b, e.detail = a ++ String.intercalate ", " ["txt"] ++ b) ∧
      (∀ (fault : Option String) (st : St) (file : UploadFileReq),
        file.filename = "b.exe" →
        file.content.length ≤ (1000 : Nat) →
        upload_file_handler ⟨"bkt", 1000, some "txt", 8080⟩ fault st file =
          (.error e, st))) :=
  ⟨(validate_file_type_gate ⟨"bkt", 1000, none, 8080⟩ "b.exe").1 rfl,
   (validate_file_type_gate ⟨"bkt", 1000, some "txt", 8080⟩ "b.exe").2
     ["txt"] (by decide) (by decide)⟩

/-! ### C6 -/

/-- C6: the content type of every successful download response is exactly
the one resolved from the gateway stat call for that filename (a total
string, never absent), and it is `application/octet-stream` when the upload
supplied no content type, the backend default for unknown content types. -/
theorem download_media_type_from_stat (b : Bucket) (filename : String) :
    (∀ resp, download_file_handler none b filename = .ok resp →
      ∃ md, StorageService.get_file_metadata none b filename = .ok md ∧
        resp.media_type = md.content_type) ∧
    (∀ (s : Settings) (st : St) (B : Bytes) (r : UploadResult) (st1 : St),
      StorageService.upload_file s none st B filename none = (.ok r, st1) →
      ∀ resp, download_file_handler none st1.bucket filename = .ok resp →
        resp.media_type = backendDefaultContentType) := by
  constructor
  · intro resp h
    unfold download_file_handler at h
    cases hd : StorageService.download_file none b filename with
    | error e => simp [hd] at h
    | ok content =>
      cases hm : StorageService.get_file_metadata none b filename with
      | error e => simp [hd, hm] at h
      | ok md =>
        simp only [hd, hm] at h
        refine ⟨md, rfl, ?_⟩
        injection h with h2
        subst h2
        rfl
  · intro s st B r st1 hup resp hd
    simp only [StorageService.upload_file] at hup
    rw [Prod.mk.injEq] at hup
    obtain ⟨-, hs⟩ := hup
    subst hs
    have hk := lookup_bucketPut_self st.bucket filename ⟨B, backendDefaultContentType⟩
    simp only [download_file_handler, StorageService.download_file,
      StorageService.get_file_metadata, Option.getD_none] at hd
    simp only [hk] at hd
    injection hd with h2
    subst h2
    rfl

/-- Witness for C6 at a concrete bucket and a concrete no-content-type
upload. -/
theorem download_media_type_from_stat_witness :
    (∃ md, StorageService.get_file_metadata none
        [("a.txt", ⟨[104], "text/plain"⟩)] "a.txt" = .ok md ∧
      (⟨[104], "text/plain", "attachment; filename=\"a.txt\""⟩ :
        DownloadResponse).media_type = md.content_type) ∧
    (⟨[7], backendDefaultContentType, "attachment; filename=\"n.bin\""⟩ :
      DownloadResponse).media_type = backendDefaultContentType :=
  ⟨(download_media_type_from_stat [("a.txt", ⟨[104], "text/plain"⟩)] "a.txt").1
      ⟨[104], "text/plain", "attachment; filename=\"a.txt\""⟩ rfl,
   (download_media_type_from_stat [] "n.bin").2 ⟨"bkt", 10, none, 8080⟩ ⟨[], 0⟩
      [7] _ _ rfl ⟨[7], backendDefaultContentType, "attachment; filename=\"n.bin\""⟩ rfl⟩

/-! ### C7 helpers -/

theorem validate_file_size_error_400 (s : Settings) (n : Nat) (e : HTTPException)
    (h : validate_file_size s n = .error e) : e.status_code = 400 := by
  unfold validate_file_size at h
  split at h
  · injection h with h1
    subst h1
    rfl
  · simp at h

theorem validate_file_type_error_400 (s : Settings) (f : String) (e : HTTPException)
    (h : validate_file_type s f = .error e) : e.status_code = 400 := by
  unfold validate_file_type at h
  cases hg : get_allowed_extensions s with
  | none => simp [hg] at h
  | some allowed =>
    simp only [hg] at h
    split at h
    · simp at h
    · injection h with h1
      subst h1
      rfl

theorem upload_handler_error_statuses (s : Settings) (fault : Option String) (st : St)
    (file : UploadFileReq) (e : HTTPException)
    (h : (upload_file_handler s fault st file).1 = .error e) :
    e.status_code = 400 ∨ e.status_code = 404 ∨ e.status_code = 500 := by
  unfold upload_file_handler at h
  cases hs : validate_file_size s file.content.length with
  | error e1 =>
    simp only [hs] at h
    injection h with h1
    subst h1
    exact .inl (validate_file_size_error_400 s file.content.length e1 hs)
  | ok u =>
    simp only [hs] at h
    cases ht : validate_file_type s file.filename with
    | error e2 =>
      simp only [ht] at h
      injection h with h1
      subst h1
      exact .inl (validate_file_type_error_400 s file.filename e2 ht)
    | ok u2 =>
      simp only [ht] at h
      cases fault with
      | some m =>
        simp only [StorageService.upload_file] at h
        injection h with h1
        subst h1
        exact .inr (.inr rfl)
      | none => simp [StorageService.upload_file] at h

theorem download_handler_error_statuses (fault : Option String) (b : Bucket)
    (n : String) (e : HTTPException)
    (h : download_file_handler fault b n = .error e) :
    e.status_code = 400 ∨ e.status_code = 404 ∨ e.status_code = 500 := by
  unfold download_file_handler StorageService.download_file
    StorageService.get_file_metadata at h
  cases fault with
  | some m =>
    simp only [] at h
    injection h with h1
    subst h1
    exact .inr (.inr rfl)
  | none =>
    cases hl : b.lookup n with
    | none =>
      simp only [hl] at h
      injection h with h1
      subst h1
      exact .inr (.inl rfl)
    | some o => simp [hl] at h

theorem delete_handler_error_statuses (fault : Option String) (st : St)
    (n : String) (e : HTTPException)
    (h : (delete_file_handler fault st n).1 = .error e) :
    e.status_code = 400 ∨ e.status_code = 404 ∨ e.status_code = 500 := by
  unfold delete_file_handler StorageService.delete_file at h
  cases fault with
  | some m =>
    simp only [] at h
    injection h with h1
    subst h1
    exact .inr (.inr rfl)
  | none =>
    cases hl : st.bucket.lookup n with
    | none =>
      simp only [hl] at h
      injection h with h1
      subst h1
      exact .inr (.inl rfl)
    | some o => simp [hl] at h

/-! ### C7 -/

/-- C7: the failure-to-status mapping is uniform across all operations —
every error any handler can produce carries status 400, 404 or 500 (never
another status); validation failures carry 400; a not-found on download or
delete carries 404; and an injected backend fault makes each operation fail
with 500 with the underlying message contained in the response detail. -/
theorem error_status_mapping :
    (∀ (s : Settings) (n : Nat) (e : HTTPException),
      validate_file_size s n = .error e → e.status_code = 400) ∧
    (∀ (s : Settings) (f : String) (e : HTTPException),
      validate_file_type s f = .error e → e.status_code = 400) ∧
    (∀ (s : Settings) (fault : Option String) (st : St) (file : UploadFileReq)
        (e : HTTPException), (upload_file_handler s fault st file).1 = .error e →
      e.status_code = 400 ∨ e.status_code = 404 ∨ e.status_code = 500) ∧
    (∀ (fault : Option String) (b : Bucket) (n : String) (e : HTTPException),
      download_file_handler fault b n = .error e →
      e.status_code = 400 ∨ e.status_code = 404 ∨ e.status_code = 500) ∧
    (∀ (fault : Option String) (st : St) (n : String) (e : HTTPException),
      (delete_file_handler fault st n).1 = .error e →
      e.status_code = 400 ∨ e.status_code = 404 ∨ e.status_code = 500) ∧
    (∀ (b : Bucket) (n : String), b.lookup n = none →
      ∃ e, download_file_handler none b n = .error e ∧ e.status_code = 404) ∧
    (∀ (st : St) (n : String), st.bucket.lookup n = none →
      ∃ e, (delete_file_handler none st n).1 = .error e ∧ e.status_code = 404) ∧
    (∀ (m : String) (s : Settings) (st : St) (file : UploadFileReq),
      file.content.length ≤ s.MAX_FILE_SIZE →
      validate_file_type s file.filename = .ok () →
      ∃ e, (upload_file_handler s (some m) st file).1 = .error e ∧
        e.status_code = 500 ∧ ∃ a b, e.detail = a ++ m ++ b) ∧
    (∀ (m : String) (b : Bucket) (n : String),
      ∃ e, download_file_handler (some m) b n = .error e ∧
        e.status_code = 500 ∧ ∃ a b, e.detail = a ++ m ++ b) ∧
    (∀ (m : String) (st : St) (n : String),
      ∃ e, (delete_file_handler (some m) st n).1 = .error e ∧
        e.status_code = 500 ∧ ∃ a b, e.detail = a ++ m ++ b) := by
  refine ⟨validate_file_size_error_400, validate_file_type_error_400,
    upload_handler_error_statuses, download_handler_error_statuses,
    delete_handler_error_statuses, ?_, ?_, ?_, ?_, ?_⟩
  · intro b n h
    exact ⟨⟨404, "File '" ++ n ++ "' not found in bucket"⟩,
      by simp [download_file_handler, StorageService.download_file, h], rfl⟩
  · intro st n h
    exact ⟨⟨404, "File '" ++ n ++ "' not found in bucket"⟩,
      by simp [delete_file_handler, StorageService.delete_file, h], rfl⟩
  · intro m s st file hsize hvt
    have hvs : validate_file_size s file.content.length = .ok () := by
      simp [validate_file_size, Nat.not_lt.mpr hsize]
    refine ⟨⟨500, "Failed to upload file: " ++ m⟩, ?_, rfl,
      "Failed to upload file: ", "", by rw [String.append_empty]⟩
    simp [upload_file_handler, hvs, hvt, StorageService.upload_file]
  · intro m b n
    exact ⟨⟨500, "Failed to download file: " ++ m⟩, rfl, rfl,
      "Failed to download file: ", "", by rw [String.append_empty]⟩
  · intro m st n
    exact ⟨⟨500, "Failed to delete file: " ++ m⟩, rfl, rfl,
      "Failed to delete file: ", "", by rw [String.append_empty]⟩

/-- Witness for C7 exercising each mapping at a concrete input: a too-large
body gives 400, a missing name gives 404 on download and delete, and an
injected backend fault gives 500 carrying the message on all three
operations. -/
theorem error_status_mapping_witness :
    ((⟨400, "File size (3 bytes) exceeds maximum allowed size (2 bytes)"⟩ :
        HTTPException).status_code = 400) ∧
    (∃ e, download_file_handler none [] "ghost.txt" = .error e ∧
      e.status_code = 404) ∧
    (∃ e, (delete_file_handler none ⟨[], 0⟩ "ghost.txt").1 = .error e ∧
      e.status_code = 404) ∧
    (∃ e, (upload_file_handler ⟨"bkt", 10, none, 8080⟩ (some "boom") ⟨[], 0⟩
        ⟨"a.txt", [1], none⟩).1 = .error e ∧
      e.status_code = 500 ∧ ∃ a b, e.detail = a ++ "boom" ++ b) ∧
    (∃ e, download_file_handler (some "boom") [] "a.txt" = .error e ∧
      e.status_code = 500 ∧ ∃ a b, e.detail = a ++ "boom" ++ b) ∧
    (∃ e, (delete_file_handler (some "boom") ⟨[], 0⟩ "a.txt").1 = .error e ∧
      e.status_code = 500 ∧ ∃ a b, e.detail = a ++ "boom" ++ b) :=
  ⟨error_status_mapping.1 ⟨"bkt", 2, none, 8080⟩ 3 _ rfl,
   error_status_mapping.2.2.2.2.2.1 [] "ghost.txt" rfl,
   error_status_mapping.2.2.2.2.2.2.1 ⟨[], 0⟩ "ghost.txt" rfl,
   error_status_mapping.2.2.2.2.2.2.2.1 "boom" ⟨"bkt", 10, none, 8080⟩ ⟨[], 0⟩
     ⟨"a.txt", [1], none⟩ (by decide) rfl,
   error_status_mapping.2.2.2.2.2.2.2.2.1 "boom" [] "a.txt",
   error_status_mapping.2.2.2.2.2.2.2.2.2 "boom" ⟨[], 0⟩ "a.txt"⟩

/-! ### C8 -/

/-- C8 counterexample: with the allowed-extensions setting present but equal
to the empty string, `get_allowed_extensions` still returns `None`, so it
does not return `None` exactly when the setting is unset. -/
theorem get_allowed_extensions_cex :
    get_allowed_extensions ⟨"bkt", 10, some "", 8080⟩ = none ∧
    (⟨"bkt", 10, some "", 8080⟩ : Settings).ALLOWED_FILE_TYPES ≠ none :=
  ⟨rfl, by decide⟩

/-- C8 amended: `get_allowed_extensions` is a pure derivation returning
`None` exactly when the setting is unset or is the empty string (Python
falsiness), and otherwise a list whose every entry is normalized: stripping
whitespace again and lowercasing again both leave the entry unchanged. -/
theorem get_allowed_extensions_normalized (s : Settings) :
    (get_allowed_extensions s = none ↔
      (s.ALLOWED_FILE_TYPES = none ∨ s.ALLOWED_FILE_TYPES = some "")) ∧
    (∀ l, get_allowed_extensions s = some l →
      ∀ e ∈ l, pyStrip e.toList = e.toList ∧ pyLower e.toList = e.toList) := by
  constructor
  · cases hv : s.ALLOWED_FILE_TYPES with
    | none => simp [get_allowed_extensions, hv]
    | some v =>
      by_cases he : v = ""
      · simp [get_allowed_extensions, hv, he]
      · simp [get_allowed_extensions, hv, he]
  · intro l hl e he
    cases hv : s.ALLOWED_FILE_TYPES with
    | none => simp [get_allowed_extensions, hv] at hl
    | some v =>
      by_cases hve : v = ""
      · simp [get_allowed_extensions, hv, hve] at hl
      · simp only [get_allowed_extensions, hv, if_neg hve] at hl
        injection hl with hl1
        subst hl1
        obtain ⟨r, -, hr⟩ := List.mem_map.mp he
        subst hr
        constructor
        · show pyStrip (pyLower (pyStrip r)) = pyLower (pyStrip r)
          rw [pyStrip_pyLower, pyStrip_idem]
        · show pyLower (pyLower (pyStrip r)) = pyLower (pyStrip r)
          rw [pyLower_idem]

/-- Witness for C8 amended at a concrete, unnormalized setting value. -/
theorem get_allowed_extensions_normalized_witness :
    (get_allowed_extensions ⟨"bkt", 10, some " TXT , pdf", 8080⟩ = none ↔
      ((⟨"bkt", 10, some " TXT , pdf", 8080⟩ : Settings).ALLOWED_FILE_TYPES = none ∨
       (⟨"bkt", 10, some " TXT , pdf", 8080⟩ : Settings).ALLOWED_FILE_TYPES = some "")) ∧
    (∀ l, get_allowed_extensions ⟨"bkt", 10, some " TXT , pdf", 8080⟩ = some l →
      ∀ e ∈ l, pyStrip e.toList = e.toList ∧ pyLower e.toList = e.toList) :=
  get_allowed_extensions_normalized ⟨"bkt", 10, some " TXT , pdf", 8080⟩

end GcpDemo
